import Mathlib

/-!
Shallow embedding of the `mqtt` crate's codec (thorstenfrank/rust-mqtt)
and proofs about it.

Conventions of the embedding:
* Rust byte slices (`&[u8]`, `Vec<u8>`) become `List Nat`; every element is a
  byte value below 256 at the call sites the theorems exercise.
* `u16`/`u32`/`usize` arithmetic is modelled on `Nat`, with an explicit
  `% 2^32` where the source performs `as u32` casts or `u32` arithmetic.
* Fallible Rust code (`Result<_, MqttError>`) becomes `Except RtError _`.
  A Rust panic (out-of-bounds slice index, `unwrap()` on `None`/`Err`,
  `usize` underflow) is modelled by the distinguished outcome
  `RtError.panicked`; an ordinary `Err(MqttError::…)` becomes
  `RtError.err _`.  The message strings carried by `MqttError` in the
  source are elided; only the constructor is kept.
* Rust `String` values are represented by their UTF-8 byte lists, and
  `HashMap<String, String>` by an association list with replace-on-insert.
-/

/-- Mirror of `error.rs`'s `MqttError`, with the message payloads elided. -/
inductive MqttError where
  | malformedPacket
  | protocolError
  | message
deriving DecidableEq, Repr

/-- Outcome of running a fallible piece of the Rust source: either a returned
`MqttError` or a panic (index out of bounds, failed `unwrap`, arithmetic
underflow in debug builds). -/
inductive RtError where
  | err (e : MqttError)
  | panicked
deriving DecidableEq, Repr

/-- Mirror of `&v[i]`: panics when the index is out of bounds. -/
def index (v : List Nat) (i : Nat) : Except RtError Nat :=
  match v.get? i with
  | some b => .ok b
  | none => .error .panicked

/-- Mirror of `&v[i..]`: panics when `i` exceeds the length. -/
def sliceFrom (v : List Nat) (i : Nat) : Except RtError (List Nat) :=
  if i ≤ v.length then .ok (v.drop i) else .error .panicked

/-- Mirror of `&v[i..j]`: panics unless `i ≤ j ≤ v.len()`. -/
def sliceRange (v : List Nat) (i j : Nat) : Except RtError (List Nat) :=
  if i ≤ j ∧ j ≤ v.length then .ok ((v.drop i).take (j - i)) else .error .panicked

/-- Mirror of a `usize` subtraction `a - b`, which panics (in debug builds)
when it would underflow. -/
def usizeSub (a b : Nat) : Except RtError Nat :=
  if b ≤ a then .ok (a - b) else .error .panicked

/-- Two's-complement modulus of `u32`. -/
def u32Mod : Nat := 4294967296

deriving instance DecidableEq for Except

/-! ## Bit-level facts about bytes

The VBI codec tests and sets the continuation bit with `& 128`, `& 127` and
`| 128` on `u8` values.  These bounded facts discharge those operations for
the byte values the codec actually produces. -/

theorem land127_low : ∀ x, x < 128 → x &&& 127 = x := by decide
theorem land127_high : ∀ x, x < 128 → (x + 128) &&& 127 = x := by decide
theorem land128_low : ∀ x, x < 128 → x &&& 128 = 0 := by decide
theorem land128_high : ∀ x, x < 128 → (x + 128) &&& 128 = 128 := by decide
theorem lor128_low : ∀ x, x < 128 → x ||| 128 = x + 128 := by decide

/-! ## Variable byte integer (`types/integer.rs`) -/

/-- Mirror of `VariableByteInteger::encoded_len` (`integer.rs:17-24`): the
width is computed from the *value*, not from any byte sequence. -/
def vbiEncodedLen (v : Nat) : Nat :=
  if v ≤ 127 then 1
  else if v ≤ 16383 then 2
  else if v ≤ 2097151 then 3
  else 4

/-- The accumulation loop of `TryFrom<&[u8]> for VariableByteInteger`
(`integer.rs:38-47`): masks each byte with 127, adds it scaled by the
multiplier, and stops at the first byte whose bit 7 is clear.  `u32`
arithmetic is modelled with `% u32Mod`. -/
def vbiDecodeLoop : List Nat → Nat → Nat → Nat
  | [], value, _ => value
  | b :: rest, value, multiplier =>
    let masked := b &&& 127
    let value' := (value + masked * multiplier) % u32Mod
    let multiplier' := multiplier * 128 % u32Mod
    if b &&& 128 = 0 then value' else vbiDecodeLoop rest value' multiplier'

/-- The value produced by the VBI decoder on a byte slice. -/
def vbiDecodeValue (bytes : List Nat) : Nat :=
  vbiDecodeLoop bytes 0 1

/-- Mirror of `TryFrom<&[u8]> for VariableByteInteger` (`integer.rs:27-52`).
The source never returns an error: the `FIXME add validation (max length = 4)`
checks are absent, so the result is always `Ok`. -/
def vbiTryFrom (bytes : List Nat) : Except RtError Nat :=
  .ok (vbiDecodeValue bytes)

/-- The `while val > 0` loop of `From<VariableByteInteger> for Vec<u8>`
(`integer.rs:72-79`).  The first argument is structural fuel so that the
definition reduces in the kernel: starting the loop with `val` units of fuel
is always enough, because the value shrinks by a factor of 128 per
iteration while the fuel only drops by one, and the zero-fuel branch
coincides with the loop's own exit condition (`val = 0`). -/
def vbiEncodeLoop : Nat → Nat → List Nat
  | 0, _ => []
  | fuel + 1, val =>
    if val = 0 then []
    else
      let byte := val % 128
      let val' := val / 128
      (if val' > 0 then byte ||| 128 else byte) :: vbiEncodeLoop fuel val'

/-- Mirror of `From<VariableByteInteger> for Vec<u8>` (`integer.rs:60-82`):
zero short-circuits to the single byte `0x00`. -/
def vbiEncode (v : Nat) : List Nat :=
  if v = 0 then [0] else vbiEncodeLoop v v

theorem vbiEncodeLoop_zero (fuel : Nat) : vbiEncodeLoop fuel 0 = [] := by
  cases fuel <;> simp [vbiEncodeLoop]

theorem vbiEncodeLoop_low (fuel v : Nat) (h0 : 0 < v) (h : v < 128)
    (hf : 0 < fuel) : vbiEncodeLoop fuel v = [v] := by
  cases fuel with
  | zero => omega
  | succ f =>
    have hd : v / 128 = 0 := by omega
    have hm : v % 128 = v := Nat.mod_eq_of_lt h
    simp [vbiEncodeLoop, h0.ne', hd, hm, vbiEncodeLoop_zero]

theorem vbiEncodeLoop_high (fuel v : Nat) (h : 128 ≤ v) :
    vbiEncodeLoop (fuel + 1) v = (v % 128 ||| 128) :: vbiEncodeLoop fuel (v / 128) := by
  have hd : 0 < v / 128 := by omega
  have hne : v ≠ 0 := by omega
  simp [vbiEncodeLoop, hne, hd]

/-- Number of bytes the decoder's `for` loop actually visits: every byte up
to and including the first one whose continuation bit is clear. -/
def vbiConsumed : List Nat → Nat
  | [] => 0
  | b :: rest => if b &&& 128 = 0 then 1 else 1 + vbiConsumed rest

/-- Decoding the encoder's output adds `v * m` to the accumulator: the
generalised round-trip invariant over the decoder's accumulator `acc` and
multiplier `m`. -/
theorem vbiDecodeLoop_encodeLoop (fuel : Nat) :
    ∀ v acc m, 0 < v → v < 128 ^ fuel → 0 < m → acc + v * m < u32Mod →
      vbiDecodeLoop (vbiEncodeLoop fuel v) acc m = acc + v * m := by
  induction fuel with
  | zero =>
    intro v acc m hv hvf _ _
    simp at hvf
    omega
  | succ f ih =>
    intro v acc m hv hvf hm hbound
    by_cases hdiv : v / 128 = 0
    · have hlt : v < 128 := by omega
      rw [vbiEncodeLoop_low (f + 1) v hv hlt (by omega)]
      simp only [vbiDecodeLoop, land127_low v hlt, land128_low v hlt, if_pos rfl]
      exact Nat.mod_eq_of_lt hbound
    · have hpos : 0 < v / 128 := Nat.pos_of_ne_zero hdiv
      have hmodlt : v % 128 < 128 := Nat.mod_lt _ (by omega)
      have hdivlt : v / 128 < 128 ^ f := by
        rw [pow_succ] at hvf
        exact (Nat.div_lt_iff_lt_mul (by omega)).mpr hvf
      rw [vbiEncodeLoop_high f v (by omega), lor128_low _ hmodlt]
      simp only [vbiDecodeLoop, land127_high _ hmodlt, land128_high _ hmodlt]
      rw [if_neg (by omega)]
      -- the split of v into its low seven bits and the quotient
      have hsplit : v % 128 * m + v / 128 * (m * 128) = v * m := by
        have h := Nat.mod_add_div v 128
        calc v % 128 * m + v / 128 * (m * 128)
            = (v % 128 + 128 * (v / 128)) * m := by ring
          _ = v * m := by rw [h]
      have hmono : v % 128 * m ≤ v * m :=
        Nat.mul_le_mul_right m (Nat.mod_le v 128)
      have hq : 1 * (m * 128) ≤ v / 128 * (m * 128) :=
        Nat.mul_le_mul_right _ hpos
      have hval : (acc + v % 128 * m) % u32Mod = acc + v % 128 * m :=
        Nat.mod_eq_of_lt (by omega)
      have hmul : m * 128 % u32Mod = m * 128 :=
        Nat.mod_eq_of_lt (by omega)
      rw [hval, hmul, ih (v / 128) _ _ hpos hdivlt (by omega) (by omega)]
      omega

/-- The encoder's loop emits as many bytes as `encoded_len` predicts, for
values in the 4-byte range. -/
theorem vbiEncodeLoop_length (fuel : Nat) :
    ∀ v, 0 < v → v < 128 ^ fuel → v ≤ 268435455 →
      (vbiEncodeLoop fuel v).length = vbiEncodedLen v := by
  induction fuel with
  | zero =>
    intro v hv hvf _
    simp at hvf
    omega
  | succ f ih =>
    intro v hv hvf hmax
    by_cases hdiv : v / 128 = 0
    · rw [vbiEncodeLoop_low (f + 1) v hv (by omega) (by omega)]
      simp only [List.length_cons, List.length_nil, vbiEncodedLen]
      rw [if_pos (by omega)]
    · have hpos : 0 < v / 128 := Nat.pos_of_ne_zero hdiv
      have hdivlt : v / 128 < 128 ^ f := by
        rw [pow_succ] at hvf
        exact (Nat.div_lt_iff_lt_mul (by omega)).mpr hvf
      have hrec := ih (v / 128) hpos hdivlt (by omega)
      rw [vbiEncodeLoop_high f v (by omega)]
      simp only [List.length_cons, hrec]
      unfold vbiEncodedLen
      split_ifs <;> omega

/-- C3: for every `n` in the VBI range, decoding the encoding of `n` yields
`n`; the encoding of `0` is the single byte `0x00`; and the encoded length
is 1 for `n ≤ 127`, 2 for `n ≤ 16383`, 3 for `n ≤ 2097151`, 4 otherwise,
which also agrees with `encoded_len`. -/
theorem claim_C3_vbi_roundtrip (n : Nat) (h : n ≤ 268435455) :
    vbiTryFrom (vbiEncode n) = .ok n ∧
    vbiEncode 0 = [0] ∧
    (vbiEncode n).length = vbiEncodedLen n ∧
    vbiEncodedLen n =
      (if n ≤ 127 then 1 else if n ≤ 16383 then 2 else if n ≤ 2097151 then 3 else 4) := by
  refine ⟨?_, rfl, ?_, rfl⟩
  · by_cases hz : n = 0
    · subst hz; rfl
    · have hpos : 0 < n := Nat.pos_of_ne_zero hz
      simp only [vbiTryFrom, vbiEncode, if_neg hz, vbiDecodeValue]
      rw [vbiDecodeLoop_encodeLoop n n 0 1 hpos (Nat.lt_pow_self (by omega) n)
        Nat.one_pos (by simp [u32Mod]; omega)]
      simp
  · by_cases hz : n = 0
    · subst hz; rfl
    · simp only [vbiEncode, if_neg hz]
      exact vbiEncodeLoop_length n n (Nat.pos_of_ne_zero hz)
        (Nat.lt_pow_self (by omega) n) h

/-- Witness for C3 at `n = 2097151`. -/
theorem claim_C3_witness :
    (2097151 ≤ 268435455) ∧
      (vbiTryFrom (vbiEncode 2097151) = .ok 2097151 ∧
       vbiEncode 0 = [0] ∧
       (vbiEncode 2097151).length = vbiEncodedLen 2097151 ∧
       vbiEncodedLen 2097151 =
         (if 2097151 ≤ 127 then 1 else if 2097151 ≤ 16383 then 2
          else if 2097151 ≤ 2097151 then 3 else 4)) :=
  ⟨by omega, claim_C3_vbi_roundtrip 2097151 (by omega)⟩

/-! ## Shared packet helpers (`packet/mod.rs`) -/

/-- Big-endian bytes of a `u16` value (`u16::to_be_bytes`, after the
source's `as u16` truncation where one occurs). -/
def beBytes2 (v : Nat) : List Nat :=
  [v % 65536 / 256, v % 256]

/-- Big-endian bytes of a `u32` value. -/
def beBytes4 (v : Nat) : List Nat :=
  [v % u32Mod / 16777216, v % 16777216 / 65536, v % 65536 / 256, v % 256]

/-- Mirror of `u16_from_be_bytes` (`mod.rs:190-201`).  The guard is
`index >= src.len()` with `index = 2`, so a slice of exactly two bytes is
rejected with `MqttError::Message` — three bytes are required. -/
def u16FromBeBytes (src : List Nat) : Except RtError Nat :=
  if 2 ≥ src.length then .error (.err .message)
  else .ok (src.getD 0 0 * 256 + src.getD 1 0)

/-- Mirror of `u32_from_be_bytes` (`mod.rs:205-216`); same off-by-one shape:
a slice of exactly four bytes is rejected. -/
def u32FromBeBytes (src : List Nat) : Except RtError Nat :=
  if 4 ≥ src.length then .error (.err .message)
  else .ok (src.getD 0 0 * 16777216 + src.getD 1 0 * 65536 +
            src.getD 2 0 * 256 + src.getD 3 0)

/-- Mirror of `calculate_and_insert_length` + `encode_and_insert`
(`mod.rs:231-249`): encode `packet.len() - 1` as a VBI and splice it in
right after the first byte. -/
def calculateAndInsertLength (packet : List Nat) : List Nat :=
  packet.take 1 ++ vbiEncode ((packet.length - 1) % u32Mod) ++ packet.drop 1

/-- Mirror of `remaining_length` (`mod.rs:168-178`): decode a VBI from the
head of the slice and compare it with `src.len() - encoded_len` (a `usize`
subtraction that underflows — modelled as a panic — only on the empty
slice, then cast `as u32`). -/
def remainingLength (src : List Nat) : Except RtError Nat :=
  match vbiTryFrom src with
  | .error e => .error e
  | .ok v =>
    if vbiEncodedLen v ≤ src.length then
      let actualLen := (src.length - vbiEncodedLen v) % u32Mod
      if actualLen < v then .error (.err .malformedPacket) else .ok v
    else .error .panicked

/-- Counterexample to C8: on the non-minimally encoded remaining length
`[129, 0]` the decoder consumes both bytes and yields the value 1, so the
decoded value (1) exceeds the number of bytes actually following the
remaining-length field (0) — yet `remaining_length` succeeds, because it
recomputes the field width from the value (`encoded_len 1 = 1`) instead of
from the bytes consumed. -/
theorem claim_C8_counterexample :
    vbiDecodeValue [129, 0] = 1 ∧
    vbiConsumed [129, 0] = 2 ∧
    [129, 0].length - vbiConsumed [129, 0] = 0 ∧
    remainingLength [129, 0] = .ok 1 := by
  decide

/-- C8 as amended: whenever the decoded value `v` exceeds
`src.len() - encoded_len v` — the slice length minus the *minimal* encoded
width of the value, which is how the helper measures the field —
`remaining_length` fails with `MalformedPacket`. -/
theorem claim_C8_amended (src : List Nat) (v : Nat)
    (hv : vbiDecodeValue src = v)
    (hle : vbiEncodedLen v ≤ src.length)
    (hsz : src.length < u32Mod)
    (hgt : src.length - vbiEncodedLen v < v) :
    remainingLength src = .error (.err .malformedPacket) := by
  unfold remainingLength vbiTryFrom
  rw [hv]
  have hmod : (src.length - vbiEncodedLen v) % u32Mod = src.length - vbiEncodedLen v :=
    Nat.mod_eq_of_lt (by omega)
  simp only [hmod, hle, if_true, if_pos hgt]

/-- Witness for the amended C8 at `src = [5]`: value 5, one byte of field,
zero bytes following. -/
theorem claim_C8_amended_witness :
    (vbiDecodeValue [5] = 5 ∧ vbiEncodedLen 5 ≤ [5].length ∧
     [5].length < u32Mod ∧ [5].length - vbiEncodedLen 5 < 5) ∧
    remainingLength [5] = .error (.err .malformedPacket) :=
  ⟨⟨by decide, by decide, by decide, by decide⟩,
   claim_C8_amended [5] 5 (by decide) (by decide) (by decide) (by decide)⟩

/-- C4: the VBI decoder of the source never fails.  On an input whose first
four bytes all carry the continuation bit (`[128,128,128,128]`, where a
fifth byte would be required and the chain is also still open at the end of
the input) and on a one-byte open chain (`[128]`) it returns `Ok 0` instead
of an error, the validation being absent (`integer.rs:33`, `FIXME add
validation (max length = 4)`). -/
theorem claim_C4_decode_never_fails :
    vbiTryFrom [128, 128, 128, 128] = .ok 0 ∧
    vbiTryFrom [128] = .ok 0 ∧
    (∀ b ∈ [128, 128, 128, 128], b &&& 128 ≠ 0) := by
  decide

/-! ## UTF-8 strings and binary data (`types/string.rs`, `types/bytes.rs`) -/

/-- Mirror of `types/string.rs`'s `UTF8String`: an optional string, carried
here as its UTF-8 byte list. -/
structure UTF8String where
  value : Option (List Nat)
deriving DecidableEq, Repr

/-- Mirror of `UTF8String::encoded_len`: two length bytes plus the byte
length of the string when present. -/
def UTF8String.encodedLen (s : UTF8String) : Nat :=
  2 + (match s.value with | some v => v.length | none => 0)

/-- Whether a byte is a UTF-8 continuation byte (`10xxxxxx`). -/
def utf8ContByte (b : Nat) : Bool :=
  128 ≤ b && b ≤ 191

/-- Modelled from `String::from_utf8` of the Rust standard library: UTF-8
well-formedness per RFC 3629 (shortest forms only, no surrogates, ceiling
U+10FFFF). -/
def utf8Valid : List Nat → Bool
  | [] => true
  | b :: rest =>
    if b ≤ 127 then utf8Valid rest
    else if b < 194 then false
    else if b ≤ 223 then
      match rest with
      | c1 :: r => utf8ContByte c1 && utf8Valid r
      | _ => false
    else if b ≤ 239 then
      match rest with
      | c1 :: c2 :: r =>
        (if b = 224 then decide (160 ≤ c1 ∧ c1 ≤ 191)
         else if b = 237 then decide (128 ≤ c1 ∧ c1 ≤ 159)
         else utf8ContByte c1) &&
        utf8ContByte c2 && utf8Valid r
      | _ => false
    else if b ≤ 244 then
      match rest with
      | c1 :: c2 :: c3 :: r =>
        (if b = 240 then decide (144 ≤ c1 ∧ c1 ≤ 191)
         else if b = 244 then decide (128 ≤ c1 ∧ c1 ≤ 143)
         else utf8ContByte c1) &&
        utf8ContByte c2 && utf8ContByte c3 && utf8Valid r
      | _ => false
    else false

/-- Any single byte below 128 is well-formed UTF-8 on its own. -/
theorem utf8Valid_single : ∀ x, x < 128 → utf8Valid [x] = true := by decide

/-- Mirror of `From<UTF8String> for Vec<u8>` (`string.rs:57-77`): a present
string becomes its big-endian `u16` length (`len() as u16`) followed by its
bytes; an absent one becomes `[0, 0]`. -/
def UTF8String.intoBytes (s : UTF8String) : List Nat :=
  match s.value with
  | some bytes => beBytes2 bytes.length ++ bytes
  | none => [0, 0]

/-- Mirror of `TryFrom<&[u8]> for UTF8String` (`string.rs:89-102`):
`split_at(2)` (panics on a shorter slice), big-endian length, `value[..length]`
(panics when the slice is too short), then UTF-8 validation
(`MqttError::Message` on failure).  A successful decode always yields a
*present* string. -/
def UTF8String.tryFrom (src : List Nat) : Except RtError UTF8String :=
  if src.length < 2 then .error .panicked
  else
    let length := src.getD 0 0 * 256 + src.getD 1 0
    let value := src.drop 2
    if length ≤ value.length then
      let content := value.take length
      if utf8Valid content then .ok ⟨some content⟩ else .error (.err .message)
    else .error .panicked

/-- Mirror of `types/bytes.rs`'s `BinaryData`: a wrapped byte vector. -/
structure BinaryData where
  inner : List Nat
deriving DecidableEq, Repr

/-- Mirror of `BinaryData::new` (`bytes.rs:16-22`): rejects more than 65535
bytes. -/
def BinaryData.new (bytes : List Nat) : Except RtError BinaryData :=
  if bytes.length > 65535 then .error (.err .message) else .ok ⟨bytes⟩

/-- Mirror of `BinaryData::encoded_len`: payload plus two length bytes. -/
def BinaryData.encodedLen (b : BinaryData) : Nat :=
  b.inner.length + 2

/-- Mirror of `From<BinaryData> for Vec<u8>` (`bytes.rs:37-53`). -/
def BinaryData.intoBytes (b : BinaryData) : List Nat :=
  beBytes2 b.inner.length ++ b.inner

/-- Mirror of `BinaryData::new(..).unwrap()` followed by encoding, the
pattern the packet encoders use: panics past 65535 bytes. -/
def BinaryData.newUnwrapIntoBytes (bytes : List Nat) : Except RtError (List Nat) :=
  match BinaryData.new bytes with
  | .ok b => .ok b.intoBytes
  | .error _ => .error .panicked

/-- Mirror of `TryFrom<&[u8]> for BinaryData` (`bytes.rs:55-75`): unlike the
string decoder this one returns `MqttError::Message` (not a panic) on short
input. -/
def BinaryData.tryFrom (value : List Nat) : Except RtError BinaryData :=
  if value.length < 2 then .error (.err .message)
  else
    let length := value.getD 0 0 * 256 + value.getD 1 0
    let val := value.drop 2
    if length > val.length then .error (.err .message)
    else BinaryData.new (val.take length)

/-- Mirror of `types/string.rs`'s `UTF8StringPair`. -/
structure UTF8StringPair where
  key : UTF8String
  value : UTF8String
deriving DecidableEq, Repr

/-- Mirror of `UTF8StringPair::encoded_len`. -/
def UTF8StringPair.encodedLen (p : UTF8StringPair) : Nat :=
  p.key.encodedLen + p.value.encodedLen

/-- Mirror of `From<UTF8StringPair> for Vec<u8>`. -/
def UTF8StringPair.intoBytes (p : UTF8StringPair) : List Nat :=
  p.key.intoBytes ++ p.value.intoBytes

/-- Mirror of `TryFrom<&[u8]> for UTF8StringPair` (`string.rs:145-154`). -/
def UTF8StringPair.tryFrom (src : List Nat) : Except RtError UTF8StringPair :=
  match UTF8String.tryFrom src with
  | .error e => .error e
  | .ok key =>
    match sliceFrom src key.encodedLen with
    | .error e => .error e
    | .ok rest =>
      match UTF8String.tryFrom rest with
      | .error e => .error e
      | .ok value => .ok ⟨key, value⟩

/-- C10: the absent string and the present empty string both encode to
`[0, 0]`; decoding `[0, 0]` yields the present empty string; hence the
absent string does not round-trip to itself. -/
theorem claim_C10_empty_string_edge :
    UTF8String.intoBytes ⟨none⟩ = [0, 0] ∧
    UTF8String.intoBytes ⟨some []⟩ = [0, 0] ∧
    UTF8String.tryFrom [0, 0] = .ok ⟨some []⟩ ∧
    UTF8String.tryFrom (UTF8String.intoBytes ⟨none⟩) ≠ .ok ⟨none⟩ := by
  decide

/-! ## QoS and reason codes (`types/qos.rs`, `types/codes.rs`) -/

/-- Mirror of `types/qos.rs`'s `QoS`. -/
inductive QoS where
  | atMostOnce
  | atLeastOnce
  | exactlyOnce
deriving DecidableEq, Repr

/-- Mirror of `Into<u8> for QoS`. -/
def QoS.toU8 : QoS → Nat
  | .atMostOnce => 0
  | .atLeastOnce => 1
  | .exactlyOnce => 2

/-- Mirror of `TryFrom<u8> for QoS` (`qos.rs:15-26`). -/
def QoS.tryFrom (value : Nat) : Except RtError QoS :=
  match value with
  | 0 => .ok .atMostOnce
  | 1 => .ok .atLeastOnce
  | 2 => .ok .exactlyOnce
  | _ => .error (.err .malformedPacket)

/-- Mirror of `types/codes.rs`'s `ReasonCode`, including the source's
`TopciFilterInvalid` spelling. -/
inductive ReasonCode where
  | success
  | grantedQoS1
  | grantedQoS2
  | disconnectWithWill
  | noMatchingSubscribers
  | noSubscriptionExisted
  | continueAuthentication
  | reAuthenticate
  | unspecifiedError
  | malformedPacket
  | protocolError
  | implementationSpecificError
  | unsupportedProtocolVersion
  | clientIdentifierInvalid
  | badUserNameOrPassword
  | notAuthorized
  | serverUnavailable
  | serverBusy
  | banned
  | serverShuttingDown
  | badAuthenticationMethod
  | keepAliveTimeout
  | sessionTakenOver
  | topciFilterInvalid
  | topicNameInvalid
  | packetIdentifierInUse
  | packetIdentifierNotFound
  | receiveMaximumExceeded
  | topicAliasInvalid
  | packetTooLarge
  | messageRateToohigh
  | quotaExceeded
  | administrativeAction
  | payloadFormatInvalid
  | retainNotSupported
  | qoSNotSupported
  | useAnotherServer
  | serverMoved
  | sharedSubscriptionsNotSupported
  | connectionRateExceeded
  | maximumConnectionTime
  | subscriptionIdentifiersNotSupported
  | wildcardSubscriptionsNotSupported
deriving DecidableEq, Repr, Fintype

/-- Mirror of `From<ReasonCode> for u8` (the enum's numeric values). -/
def ReasonCode.toU8 : ReasonCode → Nat
  | .success => 0
  | .grantedQoS1 => 1
  | .grantedQoS2 => 2
  | .disconnectWithWill => 4
  | .noMatchingSubscribers => 16
  | .noSubscriptionExisted => 17
  | .continueAuthentication => 24
  | .reAuthenticate => 25
  | .unspecifiedError => 128
  | .malformedPacket => 129
  | .protocolError => 130
  | .implementationSpecificError => 131
  | .unsupportedProtocolVersion => 132
  | .clientIdentifierInvalid => 133
  | .badUserNameOrPassword => 134
  | .notAuthorized => 135
  | .serverUnavailable => 136
  | .serverBusy => 137
  | .banned => 138
  | .serverShuttingDown => 139
  | .badAuthenticationMethod => 140
  | .keepAliveTimeout => 141
  | .sessionTakenOver => 142
  | .topciFilterInvalid => 143
  | .topicNameInvalid => 144
  | .packetIdentifierInUse => 145
  | .packetIdentifierNotFound => 146
  | .receiveMaximumExceeded => 147
  | .topicAliasInvalid => 148
  | .packetTooLarge => 149
  | .messageRateToohigh => 150
  | .quotaExceeded => 151
  | .administrativeAction => 152
  | .payloadFormatInvalid => 153
  | .retainNotSupported => 154
  | .qoSNotSupported => 155
  | .useAnotherServer => 156
  | .serverMoved => 157
  | .sharedSubscriptionsNotSupported => 158
  | .connectionRateExceeded => 159
  | .maximumConnectionTime => 160
  | .subscriptionIdentifiersNotSupported => 161
  | .wildcardSubscriptionsNotSupported => 162

/-- Mirror of `TryFrom<u8> for ReasonCode` (`codes.rs:118-170`): undefined
values yield `MqttError::Message`. -/
def ReasonCode.tryFrom (value : Nat) : Except RtError ReasonCode :=
  match value with
  | 0 => .ok .success
  | 1 => .ok .grantedQoS1
  | 2 => .ok .grantedQoS2
  | 4 => .ok .disconnectWithWill
  | 16 => .ok .noMatchingSubscribers
  | 17 => .ok .noSubscriptionExisted
  | 24 => .ok .continueAuthentication
  | 25 => .ok .reAuthenticate
  | 128 => .ok .unspecifiedError
  | 129 => .ok .malformedPacket
  | 130 => .ok .protocolError
  | 131 => .ok .implementationSpecificError
  | 132 => .ok .unsupportedProtocolVersion
  | 133 => .ok .clientIdentifierInvalid
  | 134 => .ok .badUserNameOrPassword
  | 135 => .ok .notAuthorized
  | 136 => .ok .serverUnavailable
  | 137 => .ok .serverBusy
  | 138 => .ok .banned
  | 139 => .ok .serverShuttingDown
  | 140 => .ok .badAuthenticationMethod
  | 141 => .ok .keepAliveTimeout
  | 142 => .ok .sessionTakenOver
  | 143 => .ok .topciFilterInvalid
  | 144 => .ok .topicNameInvalid
  | 145 => .ok .packetIdentifierInUse
  | 146 => .ok .packetIdentifierNotFound
  | 147 => .ok .receiveMaximumExceeded
  | 148 => .ok .topicAliasInvalid
  | 149 => .ok .packetTooLarge
  | 150 => .ok .messageRateToohigh
  | 151 => .ok .quotaExceeded
  | 152 => .ok .administrativeAction
  | 153 => .ok .payloadFormatInvalid
  | 154 => .ok .retainNotSupported
  | 155 => .ok .qoSNotSupported
  | 156 => .ok .useAnotherServer
  | 157 => .ok .serverMoved
  | 158 => .ok .sharedSubscriptionsNotSupported
  | 159 => .ok .connectionRateExceeded
  | 160 => .ok .maximumConnectionTime
  | 161 => .ok .subscriptionIdentifiersNotSupported
  | 162 => .ok .wildcardSubscriptionsNotSupported
  | _ => .error (.err .message)

/-! ## Properties (`packet/properties.rs`) -/

/-- Mirror of `PropertyIdentifier` (`properties.rs:14-42`). -/
inductive PropertyIdentifier where
  | payloadFormatIndicator
  | messageExpiryInterval
  | contentType
  | responseTopic
  | correlationData
  | subscriptionIdentifier
  | sessionExpiryInterval
  | assignedClientIdentifier
  | serverKeepAlive
  | authenticationMethod
  | authenticationData
  | requestProblemInformation
  | willDelayInterval
  | requestResponseInformation
  | responseInformation
  | serverReference
  | reasonString
  | receiveMaximum
  | topicAliasMaximum
  | topicAlias
  | maximumQos
  | retainAvailable
  | userProperty
  | maximumPacketSize
  | wildcardSubscriptionAvailable
  | subscriptionIdentifierAvailable
  | sharedSubscriptionAvailable
deriving DecidableEq, Repr

/-- Numeric identifier of each property (the enum's discriminants). -/
def PropertyIdentifier.toU8 : PropertyIdentifier → Nat
  | .payloadFormatIndicator => 1
  | .messageExpiryInterval => 2
  | .contentType => 3
  | .responseTopic => 8
  | .correlationData => 9
  | .subscriptionIdentifier => 11
  | .sessionExpiryInterval => 17
  | .assignedClientIdentifier => 18
  | .serverKeepAlive => 19
  | .authenticationMethod => 21
  | .authenticationData => 22
  | .requestProblemInformation => 23
  | .willDelayInterval => 24
  | .requestResponseInformation => 25
  | .responseInformation => 26
  | .serverReference => 28
  | .reasonString => 31
  | .receiveMaximum => 33
  | .topicAliasMaximum => 34
  | .topicAlias => 35
  | .maximumQos => 36
  | .retainAvailable => 37
  | .userProperty => 38
  | .maximumPacketSize => 39
  | .wildcardSubscriptionAvailable => 40
  | .subscriptionIdentifierAvailable => 41
  | .sharedSubscriptionAvailable => 42

/-- Mirror of `TryFrom<&u8> for PropertyIdentifier` (`properties.rs:162-203`):
unknown identifiers yield `MqttError::Message`. -/
def PropertyIdentifier.tryFrom (value : Nat) : Except RtError PropertyIdentifier :=
  match value with
  | 1 => .ok .payloadFormatIndicator
  | 2 => .ok .messageExpiryInterval
  | 3 => .ok .contentType
  | 8 => .ok .responseTopic
  | 9 => .ok .correlationData
  | 11 => .ok .subscriptionIdentifier
  | 17 => .ok .sessionExpiryInterval
  | 18 => .ok .assignedClientIdentifier
  | 19 => .ok .serverKeepAlive
  | 21 => .ok .authenticationMethod
  | 22 => .ok .authenticationData
  | 23 => .ok .requestProblemInformation
  | 24 => .ok .willDelayInterval
  | 25 => .ok .requestResponseInformation
  | 26 => .ok .responseInformation
  | 28 => .ok .serverReference
  | 31 => .ok .reasonString
  | 33 => .ok .receiveMaximum
  | 34 => .ok .topicAliasMaximum
  | 35 => .ok .topicAlias
  | 36 => .ok .maximumQos
  | 37 => .ok .retainAvailable
  | 38 => .ok .userProperty
  | 39 => .ok .maximumPacketSize
  | 40 => .ok .wildcardSubscriptionAvailable
  | 41 => .ok .subscriptionIdentifierAvailable
  | 42 => .ok .sharedSubscriptionAvailable
  | _ => .error (.err .message)

/-- Mirror of `DataRepresentation` (`properties.rs:57-78`). -/
inductive DataRepresentation where
  | byte (v : Nat)
  | twoByteInt (v : Nat)
  | fourByteInt (v : Nat)
  | variByteInt (v : Nat)
  | utf8 (v : UTF8String)
  | utf8Pair (v : UTF8StringPair)
  | binaryData (v : BinaryData)
deriving DecidableEq, Repr

/-- Mirror of `MqttDataType for DataRepresentation::encoded_len`
(`properties.rs:225-237`). -/
def DataRepresentation.encodedLen : DataRepresentation → Nat
  | .byte _ => 1
  | .twoByteInt _ => 2
  | .fourByteInt _ => 4
  | .variByteInt v => vbiEncodedLen v
  | .utf8 s => s.encodedLen
  | .utf8Pair p => p.encodedLen
  | .binaryData b => b.encodedLen

/-- Mirror of the value part of `Into<Vec<u8>> for MqttProperty`
(`properties.rs:262-282`). -/
def DataRepresentation.intoBytes : DataRepresentation → List Nat
  | .byte b => [b]
  | .twoByteInt i => beBytes2 i
  | .fourByteInt i => beBytes4 i
  | .variByteInt v => vbiEncode v
  | .utf8 s => s.intoBytes
  | .utf8Pair p => p.intoBytes
  | .binaryData b => b.intoBytes

/-- Mirror of `TryInto<bool> for DataRepresentation` (`properties.rs:239-254`):
only the bytes 0 and 1 convert; anything else is a `ProtocolError`. -/
def DataRepresentation.tryIntoBool : DataRepresentation → Except RtError Bool
  | .byte 0 => .ok false
  | .byte 1 => .ok true
  | .byte _ => .error (.err .protocolError)
  | _ => .error (.err .protocolError)

/-- Mirror of `MqttProperty` (`properties.rs:46-52`). -/
structure MqttProperty where
  identifier : PropertyIdentifier
  value : DataRepresentation
deriving DecidableEq, Repr

/-- One encoded property: its identifier byte followed by the value bytes
(`Into<Vec<u8>> for MqttProperty`). -/
def MqttProperty.intoBytes (p : MqttProperty) : List Nat :=
  p.identifier.toU8 :: p.value.intoBytes

/-- The per-identifier representation dispatch of `parse_properties`
(`properties.rs:103-145`), reading the value that follows the identifier
byte.  `bytes` is `&remain[cursor..]` after the identifier has been
consumed. -/
def decodeRepresentationFor (pid : PropertyIdentifier) (bytes : List Nat) :
    Except RtError DataRepresentation :=
  match pid with
  | .payloadFormatIndicator | .requestProblemInformation
  | .requestResponseInformation | .maximumQos | .retainAvailable
  | .wildcardSubscriptionAvailable | .subscriptionIdentifierAvailable
  | .sharedSubscriptionAvailable =>
    match bytes with
    | b :: _ => .ok (.byte b)
    | [] => .error .panicked
  | .serverKeepAlive | .receiveMaximum | .topicAliasMaximum | .topicAlias =>
    match u16FromBeBytes bytes with
    | .ok v => .ok (.twoByteInt v)
    | .error e => .error e
  | .messageExpiryInterval | .sessionExpiryInterval | .maximumPacketSize
  | .willDelayInterval =>
    match u32FromBeBytes bytes with
    | .ok v => .ok (.fourByteInt v)
    | .error e => .error e
  | .contentType | .responseTopic | .assignedClientIdentifier
  | .authenticationMethod | .responseInformation | .serverReference
  | .reasonString =>
    match UTF8String.tryFrom bytes with
    | .ok v => .ok (.utf8 v)
    | .error e => .error e
  | .correlationData | .authenticationData =>
    match BinaryData.tryFrom bytes with
    | .ok v => .ok (.binaryData v)
    | .error e => .error e
  | .subscriptionIdentifier =>
    match vbiTryFrom bytes with
    | .ok v => .ok (.variByteInt v)
    | .error e => .error e
  | .userProperty =>
    match UTF8StringPair.tryFrom bytes with
    | .ok v => .ok (.utf8Pair v)
    | .error e => .error e

/-- The `while cursor < length` loop of `parse_properties`
(`properties.rs:99-149`), with the per-packet consumer threaded through as a
state-passing callback.  The first `Nat` argument is structural fuel so
that the definition reduces in the kernel: `length` units are always
enough, because each iteration advances the cursor by at least two while
the fuel drops by one, and the zero-fuel branch coincides with the loop's
exit result. -/
def parsePropsLoop {σ : Type} (remain : List Nat) (length : Nat)
    (f : σ → MqttProperty → Except RtError σ) :
    Nat → σ → Nat → Except RtError (Nat × σ)
  | 0, st, cursor => .ok (cursor, st)
  | fuel + 1, st, cursor =>
    if cursor < length then
      match remain.get? cursor with
      | none => .error .panicked
      | some idByte =>
        match PropertyIdentifier.tryFrom idByte with
        | .error e => .error e
        | .ok pid =>
          match decodeRepresentationFor pid (remain.drop (cursor + 1)) with
          | .error e => .error e
          | .ok value =>
            match f st ⟨pid, value⟩ with
            | .error e => .error e
            | .ok st' =>
              parsePropsLoop remain length f fuel st' (cursor + 1 + value.encodedLen)
    else .ok (cursor, st)

/-- Mirror of `parse_properties` (`properties.rs:85-152`): an empty slice
reads zero bytes; otherwise the block length is a VBI and the loop parses
`(identifier, value)` pairs, returning the total bytes read. -/
def parseProperties {σ : Type} (src : List Nat)
    (f : σ → MqttProperty → Except RtError σ) (init : σ) :
    Except RtError (Nat × σ) :=
  if src.length = 0 then .ok (0, init)
  else
    match vbiTryFrom src with
    | .error e => .error e
    | .ok v =>
      match sliceFrom src (vbiEncodedLen v) with
      | .error e => .error e
      | .ok remain =>
        match parsePropsLoop remain v f v init 0 with
        | .error e => .error e
        | .ok (cursor, st) => .ok (vbiEncodedLen v + cursor, st)

/-- Mirror of `DecodingResult` (`mod.rs:138-152`). -/
structure DecodingResult (σ : Type) where
  bytesRead : Nat
  value : Option σ
deriving DecidableEq, Repr

/-- Replace-on-insert association list: the model of
`HashMap<String, String>::insert`. -/
def hashMapInsert (m : List (List Nat × List Nat)) (k v : List Nat) :
    List (List Nat × List Nat) :=
  match m with
  | [] => [(k, v)]
  | (k', v') :: rest =>
    if k' = k then (k, v) :: rest else (k', v') :: hashMapInsert rest k v

/-- Mirror of the derive-generated encoding of one user-property map
(`mqtt-derive/src/encode.rs:41-48`): one `UserProperty` per entry, in
iteration order. -/
def userPropertyBytes (m : List (List Nat × List Nat)) : List Nat :=
  m.flatMap fun kv =>
    MqttProperty.intoBytes
      ⟨.userProperty, .utf8Pair ⟨⟨some kv.1⟩, ⟨some kv.2⟩⟩⟩

/-! ## Per-packet property structs (derive-generated by `mqtt-derive`) -/

/-- Mirror of `PubackProperties` (`puback.rs:17-21`). -/
structure PubackProperties where
  reason_string : Option (List Nat)
  user_property : List (List Nat × List Nat)
deriving DecidableEq, Repr

/-- The derive-generated `Default` for `PubackProperties`: options `None`,
map empty. -/
def PubackProperties.default0 : PubackProperties :=
  ⟨none, []⟩

/-- The derive-generated property consumer for `PubackProperties`
(`mqtt-derive/src/decode.rs`): one arm per field, `MqttError::Message` for
any other identifier.  Note that no arm checks for a previous occurrence —
a repeated field simply overwrites. -/
def PubackProperties.applyProperty (st : PubackProperties) (p : MqttProperty) :
    Except RtError PubackProperties :=
  match p.identifier with
  | .reasonString =>
    match p.value with
    | .utf8 v => .ok { st with reason_string := v.value }
    | _ => .ok st
  | .userProperty =>
    match p.value with
    | .utf8Pair pr =>
      match pr.key.value with
      | some k =>
        .ok { st with
              user_property := hashMapInsert st.user_property k (pr.value.value.getD []) }
      | none => .error .panicked
    | _ => .ok st
  | _ => .error (.err .message)

/-- The derive-generated `Decodeable::decode` for `PubackProperties`:
`parse_properties` plus the `0 | 1 => None` collapse of an empty block. -/
def PubackProperties.decode (src : List Nat) :
    Except RtError (DecodingResult PubackProperties) :=
  match parseProperties src PubackProperties.applyProperty PubackProperties.default0 with
  | .error e => .error e
  | .ok (bytesRead, st) =>
    .ok ⟨bytesRead, match bytesRead with | 0 => none | 1 => none | _ => some st⟩

/-- The derive-generated `From<PubackProperties> for Vec<u8>`: encode each
present field in declaration order, then prepend the VBI length of the
whole block. -/
def PubackProperties.intoBytes (p : PubackProperties) : List Nat :=
  let result :=
    (match p.reason_string with
     | some v => MqttProperty.intoBytes ⟨.reasonString, .utf8 ⟨some v⟩⟩
     | none => []) ++
    userPropertyBytes p.user_property
  vbiEncode (result.length % u32Mod) ++ result

/-- Mirror of `ConnectProperties` (`connect.rs:88-122`). -/
structure ConnectProperties where
  session_expiry_interval : Option Nat
  receive_maximum : Option Nat
  maximum_packet_size : Option Nat
  topic_alias_maximum : Option Nat
  request_response_information : Option Bool
  request_problem_information : Option Bool
  user_property : List (List Nat × List Nat)
  authentication_method : Option (List Nat)
  authentication_data : Option (List Nat)
deriving DecidableEq, Repr

/-- The derive-generated `Default` for `ConnectProperties`. -/
def ConnectProperties.default0 : ConnectProperties :=
  ⟨none, none, none, none, none, none, [], none, none⟩

/-- The derive-generated property consumer for `ConnectProperties`. -/
def ConnectProperties.applyProperty (st : ConnectProperties) (p : MqttProperty) :
    Except RtError ConnectProperties :=
  match p.identifier with
  | .sessionExpiryInterval =>
    match p.value with
    | .fourByteInt v => .ok { st with session_expiry_interval := some v }
    | _ => .ok st
  | .receiveMaximum =>
    match p.value with
    | .twoByteInt v => .ok { st with receive_maximum := some v }
    | _ => .ok st
  | .maximumPacketSize =>
    match p.value with
    | .fourByteInt v => .ok { st with maximum_packet_size := some v }
    | _ => .ok st
  | .topicAliasMaximum =>
    match p.value with
    | .twoByteInt v => .ok { st with topic_alias_maximum := some v }
    | _ => .ok st
  | .requestResponseInformation =>
    match p.value with
    | .byte _ =>
      match p.value.tryIntoBool with
      | .ok b => .ok { st with request_response_information := some b }
      | .error e => .error e
    | _ => .ok st
  | .requestProblemInformation =>
    match p.value with
    | .byte _ =>
      match p.value.tryIntoBool with
      | .ok b => .ok { st with request_problem_information := some b }
      | .error e => .error e
    | _ => .ok st
  | .userProperty =>
    match p.value with
    | .utf8Pair pr =>
      match pr.key.value with
      | some k =>
        .ok { st with
              user_property := hashMapInsert st.user_property k (pr.value.value.getD []) }
      | none => .error .panicked
    | _ => .ok st
  | .authenticationMethod =>
    match p.value with
    | .utf8 v => .ok { st with authentication_method := v.value }
    | _ => .ok st
  | .authenticationData =>
    match p.value with
    | .binaryData v => .ok { st with authentication_data := some v.inner }
    | _ => .ok st
  | _ => .error (.err .message)

/-- The derive-generated `Decodeable::decode` for `ConnectProperties`. -/
def ConnectProperties.decode (src : List Nat) :
    Except RtError (DecodingResult ConnectProperties) :=
  match parseProperties src ConnectProperties.applyProperty ConnectProperties.default0 with
  | .error e => .error e
  | .ok (bytesRead, st) =>
    .ok ⟨bytesRead, match bytesRead with | 0 => none | 1 => none | _ => some st⟩

/-- The derive-generated `From<ConnectProperties> for Vec<u8>`.  The
`Vec<u8>` field goes through `BinaryData::new(..).unwrap()`, which panics
past 65535 bytes. -/
def ConnectProperties.intoBytes (p : ConnectProperties) :
    Except RtError (List Nat) :=
  match (match p.authentication_data with
         | some v => BinaryData.new v
         | none => .ok ⟨[]⟩ : Except RtError BinaryData) with
  | .error _ => .error .panicked
  | .ok authData =>
    let result :=
      (match p.session_expiry_interval with
       | some v => MqttProperty.intoBytes ⟨.sessionExpiryInterval, .fourByteInt v⟩
       | none => []) ++
      (match p.receive_maximum with
       | some v => MqttProperty.intoBytes ⟨.receiveMaximum, .twoByteInt v⟩
       | none => []) ++
      (match p.maximum_packet_size with
       | some v => MqttProperty.intoBytes ⟨.maximumPacketSize, .fourByteInt v⟩
       | none => []) ++
      (match p.topic_alias_maximum with
       | some v => MqttProperty.intoBytes ⟨.topicAliasMaximum, .twoByteInt v⟩
       | none => []) ++
      (match p.request_response_information with
       | some v =>
         MqttProperty.intoBytes ⟨.requestResponseInformation, .byte (if v then 1 else 0)⟩
       | none => []) ++
      (match p.request_problem_information with
       | some v =>
         MqttProperty.intoBytes ⟨.requestProblemInformation, .byte (if v then 1 else 0)⟩
       | none => []) ++
      userPropertyBytes p.user_property ++
      (match p.authentication_method with
       | some v => MqttProperty.intoBytes ⟨.authenticationMethod, .utf8 ⟨some v⟩⟩
       | none => []) ++
      (match p.authentication_data with
       | some _ => MqttProperty.intoBytes ⟨.authenticationData, .binaryData authData⟩
       | none => [])
    .ok (vbiEncode (result.length % u32Mod) ++ result)

/-- Mirror of `WillProperties` (`connect.rs:144-172`). -/
structure WillProperties where
  will_delay_interval : Option Nat
  payload_format_indicator : Option Bool
  message_expiry_interval : Option Nat
  content_type : Option (List Nat)
  response_topic : Option (List Nat)
  correlation_data : Option (List Nat)
  user_property : List (List Nat × List Nat)
deriving DecidableEq, Repr

/-- The derive-generated `Default` for `WillProperties`. -/
def WillProperties.default0 : WillProperties :=
  ⟨none, none, none, none, none, none, []⟩

/-- The derive-generated property consumer for `WillProperties`. -/
def WillProperties.applyProperty (st : WillProperties) (p : MqttProperty) :
    Except RtError WillProperties :=
  match p.identifier with
  | .willDelayInterval =>
    match p.value with
    | .fourByteInt v => .ok { st with will_delay_interval := some v }
    | _ => .ok st
  | .payloadFormatIndicator =>
    match p.value with
    | .byte _ =>
      match p.value.tryIntoBool with
      | .ok b => .ok { st with payload_format_indicator := some b }
      | .error e => .error e
    | _ => .ok st
  | .messageExpiryInterval =>
    match p.value with
    | .fourByteInt v => .ok { st with message_expiry_interval := some v }
    | _ => .ok st
  | .contentType =>
    match p.value with
    | .utf8 v => .ok { st with content_type := v.value }
    | _ => .ok st
  | .responseTopic =>
    match p.value with
    | .utf8 v => .ok { st with response_topic := v.value }
    | _ => .ok st
  | .correlationData =>
    match p.value with
    | .binaryData v => .ok { st with correlation_data := some v.inner }
    | _ => .ok st
  | .userProperty =>
    match p.value with
    | .utf8Pair pr =>
      match pr.key.value with
      | some k =>
        .ok { st with
              user_property := hashMapInsert st.user_property k (pr.value.value.getD []) }
      | none => .error .panicked
    | _ => .ok st
  | _ => .error (.err .message)

/-- The derive-generated `Decodeable::decode` for `WillProperties`. -/
def WillProperties.decode (src : List Nat) :
    Except RtError (DecodingResult WillProperties) :=
  match parseProperties src WillProperties.applyProperty WillProperties.default0 with
  | .error e => .error e
  | .ok (bytesRead, st) =>
    .ok ⟨bytesRead, match bytesRead with | 0 => none | 1 => none | _ => some st⟩

/-- The derive-generated `From<WillProperties> for Vec<u8>`. -/
def WillProperties.intoBytes (p : WillProperties) : Except RtError (List Nat) :=
  match (match p.correlation_data with
         | some v => BinaryData.new v
         | none => .ok ⟨[]⟩ : Except RtError BinaryData) with
  | .error _ => .error .panicked
  | .ok corrData =>
    let result :=
      (match p.will_delay_interval with
       | some v => MqttProperty.intoBytes ⟨.willDelayInterval, .fourByteInt v⟩
       | none => []) ++
      (match p.payload_format_indicator with
       | some v =>
         MqttProperty.intoBytes ⟨.payloadFormatIndicator, .byte (if v then 1 else 0)⟩
       | none => []) ++
      (match p.message_expiry_interval with
       | some v => MqttProperty.intoBytes ⟨.messageExpiryInterval, .fourByteInt v⟩
       | none => []) ++
      (match p.content_type with
       | some v => MqttProperty.intoBytes ⟨.contentType, .utf8 ⟨some v⟩⟩
       | none => []) ++
      (match p.response_topic with
       | some v => MqttProperty.intoBytes ⟨.responseTopic, .utf8 ⟨some v⟩⟩
       | none => []) ++
      (match p.correlation_data with
       | some _ => MqttProperty.intoBytes ⟨.correlationData, .binaryData corrData⟩
       | none => []) ++
      userPropertyBytes p.user_property
    .ok (vbiEncode (result.length % u32Mod) ++ result)

/-- Mirror of `PublishProperties` (`publish.rs:65-75`). -/
structure PublishProperties where
  payload_format_indicator : Option Bool
  message_expiry_interval : Option Nat
  topic_alias : Option Nat
  response_topic : Option (List Nat)
  correlation_data : Option (List Nat)
  user_property : List (List Nat × List Nat)
  subscription_identifier : Option Nat
  content_type : Option (List Nat)
deriving DecidableEq, Repr

/-- The derive-generated `Default` for `PublishProperties`. -/
def PublishProperties.default0 : PublishProperties :=
  ⟨none, none, none, none, none, [], none, none⟩

/-- The derive-generated property consumer for `PublishProperties`. -/
def PublishProperties.applyProperty (st : PublishProperties) (p : MqttProperty) :
    Except RtError PublishProperties :=
  match p.identifier with
  | .payloadFormatIndicator =>
    match p.value with
    | .byte _ =>
      match p.value.tryIntoBool with
      | .ok b => .ok { st with payload_format_indicator := some b }
      | .error e => .error e
    | _ => .ok st
  | .messageExpiryInterval =>
    match p.value with
    | .fourByteInt v => .ok { st with message_expiry_interval := some v }
    | _ => .ok st
  | .topicAlias =>
    match p.value with
    | .twoByteInt v => .ok { st with topic_alias := some v }
    | _ => .ok st
  | .responseTopic =>
    match p.value with
    | .utf8 v => .ok { st with response_topic := v.value }
    | _ => .ok st
  | .correlationData =>
    match p.value with
    | .binaryData v => .ok { st with correlation_data := some v.inner }
    | _ => .ok st
  | .userProperty =>
    match p.value with
    | .utf8Pair pr =>
      match pr.key.value with
      | some k =>
        .ok { st with
              user_property := hashMapInsert st.user_property k (pr.value.value.getD []) }
      | none => .error .panicked
    | _ => .ok st
  | .subscriptionIdentifier =>
    match p.value with
    | .variByteInt v => .ok { st with subscription_identifier := some v }
    | _ => .ok st
  | .contentType =>
    match p.value with
    | .utf8 v => .ok { st with content_type := v.value }
    | _ => .ok st
  | _ => .error (.err .message)

/-- The derive-generated `Decodeable::decode` for `PublishProperties`. -/
def PublishProperties.decode (src : List Nat) :
    Except RtError (DecodingResult PublishProperties) :=
  match parseProperties src PublishProperties.applyProperty PublishProperties.default0 with
  | .error e => .error e
  | .ok (bytesRead, st) =>
    .ok ⟨bytesRead, match bytesRead with | 0 => none | 1 => none | _ => some st⟩

/-- The derive-generated `From<PublishProperties> for Vec<u8>`. -/
def PublishProperties.intoBytes (p : PublishProperties) : Except RtError (List Nat) :=
  match (match p.correlation_data with
         | some v => BinaryData.new v
         | none => .ok ⟨[]⟩ : Except RtError BinaryData) with
  | .error _ => .error .panicked
  | .ok corrData =>
    let result :=
      (match p.payload_format_indicator with
       | some v =>
         MqttProperty.intoBytes ⟨.payloadFormatIndicator, .byte (if v then 1 else 0)⟩
       | none => []) ++
      (match p.message_expiry_interval with
       | some v => MqttProperty.intoBytes ⟨.messageExpiryInterval, .fourByteInt v⟩
       | none => []) ++
      (match p.topic_alias with
       | some v => MqttProperty.intoBytes ⟨.topicAlias, .twoByteInt v⟩
       | none => []) ++
      (match p.response_topic with
       | some v => MqttProperty.intoBytes ⟨.responseTopic, .utf8 ⟨some v⟩⟩
       | none => []) ++
      (match p.correlation_data with
       | some _ => MqttProperty.intoBytes ⟨.correlationData, .binaryData corrData⟩
       | none => []) ++
      userPropertyBytes p.user_property ++
      (match p.subscription_identifier with
       | some v => MqttProperty.intoBytes ⟨.subscriptionIdentifier, .variByteInt v⟩
       | none => []) ++
      (match p.content_type with
       | some v => MqttProperty.intoBytes ⟨.contentType, .utf8 ⟨some v⟩⟩
       | none => [])
    .ok (vbiEncode (result.length % u32Mod) ++ result)

/-- Counterexample to C7: a property block carrying the non-repeating
`reason string` identifier (31) twice — `[8, 31,0,1,65, 31,0,1,66]` —
decodes *successfully*; no duplicate check exists in `parse_properties` or
in the derive-generated consumers, so no protocol error is raised. -/
theorem claim_C7_counterexample :
    PubackProperties.decode [8, 31, 0, 1, 65, 31, 0, 1, 66] =
      .ok ⟨9, some ⟨some [66], []⟩⟩ := by
  decide

/-- C7 as amended: decoding a block in which the non-repeating
`reason string` identifier occurs twice does not fail; the later
occurrence silently overwrites the earlier one.  Shown for every pair of
one-byte reason strings, varying each position over all 128 ASCII bytes. -/
theorem claim_C7_amended :
    (∀ a, a < 128 →
      PubackProperties.decode [8, 31, 0, 1, a, 31, 0, 1, 66] =
        .ok ⟨9, some ⟨some [66], []⟩⟩) ∧
    (∀ b, b < 128 →
      PubackProperties.decode [8, 31, 0, 1, 65, 31, 0, 1, b] =
        .ok ⟨9, some ⟨some [b], []⟩⟩) := by
  constructor <;> decide

/-- Witness for the amended C7 at `b = 66`. -/
theorem claim_C7_amended_witness :
    (66 : Nat) < 128 ∧
    PubackProperties.decode [8, 31, 0, 1, 65, 31, 0, 1, 66] =
      .ok ⟨9, some ⟨some [66], []⟩⟩ :=
  ⟨by decide, claim_C7_amended.2 66 (by decide)⟩

/-! ## PUBACK (`packet/puback.rs`) -/

/-- Mirror of `Puback` (`puback.rs:10-15`). -/
structure Puback where
  packet_identifier : Nat
  reason_code : ReasonCode
  properties : Option PubackProperties
deriving DecidableEq, Repr

/-- Mirror of `Puback::validate_reason_code` (`puback.rs:39-52`): the nine
permitted codes pass, everything else is a `ProtocolError`. -/
def Puback.validateReasonCode (rc : ReasonCode) : Except RtError Unit :=
  match rc with
  | .success | .noMatchingSubscribers | .unspecifiedError
  | .implementationSpecificError | .notAuthorized | .topicNameInvalid
  | .packetIdentifierInUse | .quotaExceeded | .payloadFormatInvalid => .ok ()
  | _ => .error (.err .protocolError)

/-- Mirror of `Puback::new` (`puback.rs:34-37`). -/
def Puback.new (packet_identifier : Nat) (reason_code : ReasonCode) :
    Except RtError Puback :=
  match Puback.validateReasonCode reason_code with
  | .error e => .error e
  | .ok _ => .ok ⟨packet_identifier, reason_code, none⟩

/-- Mirror of `From<Puback> for Vec<u8>` (`puback.rs:55-79`): first byte
`0x40`, packet identifier, then — only when the reason code is not
`Success` or properties are present — the reason-code byte and the
property block; finally the remaining length is spliced in. -/
def Puback.intoBytes (p : Puback) : List Nat :=
  let body :=
    [64] ++ beBytes2 p.packet_identifier ++
    (if p.reason_code ≠ .success ∨ p.properties.isSome then
       [p.reason_code.toU8] ++
       (match p.properties with
        | some props => props.intoBytes
        | none => [0])
     else [])
  calculateAndInsertLength body

/-- Mirror of `TryFrom<&[u8]> for Puback` (`puback.rs:81-116`). -/
def Puback.tryFrom (src : List Nat) : Except RtError Puback :=
  match index src 0 with
  | .error e => .error e
  | .ok b0 =>
    if b0 = 64 then
      match sliceFrom src 1 with
      | .error e => .error e
      | .ok rest =>
        match remainingLength rest with
        | .error e => .error e
        | .ok remainLen =>
          let cursor := 1 + vbiEncodedLen remainLen
          match sliceFrom src cursor with
          | .error e => .error e
          | .ok s2 =>
            match u16FromBeBytes s2 with
            | .error e => .error e
            | .ok packetIdentifier =>
              let cursor := cursor + 2
              match remainLen with
              | 2 => Puback.new packetIdentifier .success
              | _ =>
                match index src cursor with
                | .error e => .error e
                | .ok rcByte =>
                  match ReasonCode.tryFrom rcByte with
                  | .error e => .error e
                  | .ok rc =>
                    let cursor := cursor + 1
                    match sliceFrom src cursor with
                    | .error e => .error e
                    | .ok s3 =>
                      match PubackProperties.decode s3 with
                      | .error e => .error e
                      | .ok dres =>
                        match Puback.new packetIdentifier rc with
                        | .error e => .error e
                        | .ok r => .ok { r with properties := dres.value }
    else .error (.err .malformedPacket)

/-- C2 (code bug): encoding `Puback { packet id 123, Success, no
properties }` produces exactly `[64, 2, 0, 123]`, but decoding those same
bytes *fails*: after the four-byte packet is framed, only the two
packet-identifier bytes remain, and `u16_from_be_bytes` rejects a slice of
exactly two bytes (its guard is `index >= src.len()` instead of `>`),
returning `MqttError::Message` — contradicting the claim and the crate's
own `encode_and_decode` unit test (`puback.rs:124-133`). -/
theorem claim_C2_puback_roundtrip_bug :
    Puback.intoBytes ⟨123, .success, none⟩ = [64, 2, 0, 123] ∧
    Puback.tryFrom [64, 2, 0, 123] = .error (.err .message) := by
  decide

/-- C6: for every defined reason code outside the permitted PUBACK set,
`validate_reason_code` (the gate of `Puback::new`, through which both the
builder and the decoder pass) rejects it as a `ProtocolError`, and decoding
a wire PUBACK carrying that code fails with the same `ProtocolError`. -/
theorem claim_C6_reason_code_closure (rc : ReasonCode)
    (h : rc ∉ [ReasonCode.success, .noMatchingSubscribers, .unspecifiedError,
      .implementationSpecificError, .notAuthorized, .topicNameInvalid,
      .packetIdentifierInUse, .quotaExceeded, .payloadFormatInvalid]) :
    Puback.validateReasonCode rc = .error (.err .protocolError) ∧
    Puback.new 1 rc = .error (.err .protocolError) ∧
    Puback.tryFrom [64, 4, 0, 1, rc.toU8, 0] = .error (.err .protocolError) := by
  revert h
  revert rc
  decide

/-- Witness for C6 at `GrantedQoS1` (0x01), a defined code that PUBACK does
not permit. -/
theorem claim_C6_witness :
    (ReasonCode.grantedQoS1 ∉ [ReasonCode.success, .noMatchingSubscribers,
      .unspecifiedError, .implementationSpecificError, .notAuthorized,
      .topicNameInvalid, .packetIdentifierInUse, .quotaExceeded,
      .payloadFormatInvalid]) ∧
    Puback.tryFrom [64, 4, 0, 1, ReasonCode.grantedQoS1.toU8, 0] =
      .error (.err .protocolError) :=
  ⟨by decide, (claim_C6_reason_code_closure .grantedQoS1 (by decide)).2.2⟩

/-! ## PUBLISH (`packet/publish.rs`) -/

/-- Mirror of `Publish` (`publish.rs:24-62`), with the topic name as its
UTF-8 byte list. -/
structure Publish where
  dup : Bool
  qos_level : QoS
  retain : Bool
  topic_name : List Nat
  packet_identifier : Option Nat
  properties : Option PublishProperties
  payload : List Nat
deriving DecidableEq, Repr

/-- Mirror of `From<Publish> for Vec<u8>` (`publish.rs:105-148`): first byte
`0x30` with DUP, QoS and RETAIN flags ORed in; topic name; a two-byte
packet identifier when QoS > 0 — `0` is written when none was supplied
(`publish.rs:126-134`); property block; payload; remaining length spliced
in at the end. -/
def Publish.intoBytes (p : Publish) : Except RtError (List Nat) :=
  let fb0 := 48
  let fb1 := if p.dup then fb0 ||| 8 else fb0
  let qos := p.qos_level.toU8
  let fb2 := fb1 ||| (qos <<< 1)
  let fb3 := if p.retain then fb2 ||| 1 else fb2
  match (match p.properties with
         | some props => props.intoBytes
         | none => .ok [0] : Except RtError (List Nat)) with
  | .error e => .error e
  | .ok propBytes =>
    let body :=
      [fb3] ++ UTF8String.intoBytes ⟨some p.topic_name⟩ ++
      (if qos > 0 then
         beBytes2 (match p.packet_identifier with | some pid => pid | none => 0)
       else []) ++
      propBytes ++ p.payload
    .ok (calculateAndInsertLength body)

/-- Mirror of `TryFrom<&[u8]> for Publish` (`publish.rs:150-222`).  The DUP
and RETAIN flags are computed exactly as in the source —
`1 == src[0] | MASK` — where `|` (bitwise or) binds tighter than `==`, so
both compare an ORed byte against 1. -/
def Publish.tryFrom (src : List Nat) : Except RtError Publish :=
  match index src 0 with
  | .error e => .error e
  | .ok b0 =>
    let packetType := b0 &&& 48
    if packetType ≠ 48 then .error (.err .malformedPacket)
    else
      let dup := (b0 ||| 8) == 1
      let retain := (b0 ||| 1) == 1
      match QoS.tryFrom ((b0 &&& 6) >>> 1) with
      | .error e => .error e
      | .ok qosLevel =>
        match sliceFrom src 1 with
        | .error e => .error e
        | .ok rest =>
          match remainingLength rest with
          | .error e => .error e
          | .ok remainLen =>
            let cursor := 1 + vbiEncodedLen remainLen
            match sliceFrom src cursor with
            | .error e => .error e
            | .ok s1 =>
              match UTF8String.tryFrom s1 with
              | .error e => .error e
              | .ok topicRes =>
                let cursor := cursor + topicRes.encodedLen
                match usizeSub remainLen topicRes.encodedLen with
                | .error e => .error e
                | .ok payloadLen1 =>
                  let topicName := topicRes.value.getD []
                  match (match qosLevel with
                         | .atMostOnce => .ok (none, cursor, payloadLen1)
                         | _ =>
                           match sliceRange src cursor (cursor + 2) with
                           | .error e => .error e
                           | .ok s2 =>
                             match u16FromBeBytes s2 with
                             | .error e => .error e
                             | .ok pid =>
                               match usizeSub payloadLen1 2 with
                               | .error e => .error e
                               | .ok pl => .ok (some pid, cursor + 2, pl) :
                          Except RtError (Option Nat × Nat × Nat)) with
                  | .error e => .error e
                  | .ok (packetIdentifier, cursor, payloadLen2) =>
                    match sliceFrom src cursor with
                    | .error e => .error e
                    | .ok s3 =>
                      match PublishProperties.decode s3 with
                      | .error e => .error e
                      | .ok propRes =>
                        let cursor := cursor + propRes.bytesRead
                        match usizeSub payloadLen2 propRes.bytesRead with
                        | .error e => .error e
                        | .ok payloadLen =>
                          match sliceRange src cursor (cursor + payloadLen) with
                          | .error e => .error e
                          | .ok payload =>
                            .ok ⟨dup, qosLevel, retain, topicName,
                                 packetIdentifier, propRes.value, payload⟩

/-- C5 (code bug): the Publish decoder accepts `[56,3,0,0,0]` (first byte
`0x38`, DUP bit 3 set) yet decodes `dup = false`, and accepts `[49,3,0,0,0]`
(first byte `0x31`, RETAIN bit 0 set) yet decodes `retain = false`: the
masks are applied with `|` where `&` was intended, so `src[0] | mask == 1`
is false for every accepted first byte (which always carries `0x30`). -/
theorem claim_C5_publish_flag_bug :
    56 &&& 8 = 8 ∧
    Publish.tryFrom [56, 3, 0, 0, 0] =
      .ok ⟨false, .atMostOnce, false, [], none, none, []⟩ ∧
    49 &&& 1 = 1 ∧
    Publish.tryFrom [49, 3, 0, 0, 0] =
      .ok ⟨false, .atMostOnce, false, [], none, none, []⟩ := by
  decide

/-- C9: encoding a Publish whose QoS is positive but whose packet
identifier is absent does not fail — it writes the two bytes of the value
`0` where the identifier belongs, producing exactly the same bytes as if
`Some 0` had been supplied. -/
theorem claim_C9_missing_packet_id_encodes_zero (p : Publish)
    (_hq : p.qos_level ≠ QoS.atMostOnce) (hp : p.packet_identifier = none) :
    Publish.intoBytes p = Publish.intoBytes { p with packet_identifier := some 0 } := by
  simp [Publish.intoBytes, hp]

/-- Witness for C9 at a concrete QoS-1 Publish without a packet id. -/
theorem claim_C9_witness :
    ((⟨false, .atLeastOnce, false, [116], none, none, [1]⟩ : Publish).qos_level
        ≠ QoS.atMostOnce ∧
     (⟨false, .atLeastOnce, false, [116], none, none, [1]⟩ : Publish).packet_identifier
        = none) ∧
    Publish.intoBytes ⟨false, .atLeastOnce, false, [116], none, none, [1]⟩ =
      Publish.intoBytes ⟨false, .atLeastOnce, false, [116], some 0, none, [1]⟩ :=
  ⟨⟨by decide, rfl⟩,
   claim_C9_missing_packet_id_encodes_zero
     ⟨false, .atLeastOnce, false, [116], none, none, [1]⟩ (by decide) rfl⟩

/-! ## CONNECT (`packet/connect.rs`) -/

/-- Mirror of `LastWill` (`connect.rs:127-142`), strings as byte lists. -/
structure LastWill where
  qos : QoS
  retain : Bool
  properties : Option WillProperties
  will_topic : List Nat
  will_payload : List Nat
deriving DecidableEq, Repr

/-- Mirror of `Connect` (`connect.rs:57-85`). -/
structure Connect where
  client_id : Option (List Nat)
  protocol_level : Nat
  keep_alive : Nat
  clean_start : Bool
  properties : Option ConnectProperties
  will : Option LastWill
  username : Option (List Nat)
  password : Option (List Nat)
deriving DecidableEq, Repr

/-- Mirror of `Default for Connect` (`connect.rs:243-257`): no client id,
protocol level 5, keep-alive 0, clean-start false, nothing else. -/
def Connect.default0 : Connect :=
  ⟨none, 5, 0, false, none, none, none, none⟩

/-- Mirror of the internal `ConnectFlags` (`connect.rs:176-210`). -/
structure ConnectFlags where
  clean_start : Bool
  will_flag : Bool
  will_qos : Option QoS
  will_retain : Bool
  password_flag : Bool
  username_flag : Bool
deriving DecidableEq, Repr

/-- Mirror of `ConnectFlags::build` (`connect.rs:454-469`): starts from the
struct's `Default` (whose `clean_start` is `true`) and overwrites each
field from the packet; the password flag is only set when a username is
present too. -/
def ConnectFlags.build (packet : Connect) : ConnectFlags :=
  let f0 : ConnectFlags := ⟨true, false, none, false, false, false⟩
  let f1 := { f0 with clean_start := packet.clean_start }
  let f2 :=
    match packet.will with
    | some w => { f1 with will_flag := true, will_qos := some w.qos,
                          will_retain := w.retain }
    | none => f1
  let uname := packet.username.isSome
  { f2 with username_flag := uname,
            password_flag := uname && packet.password.isSome }

/-- Mirror of `From<ConnectFlags> for u8` (`connect.rs:515-541`). -/
def ConnectFlags.toU8 (flags : ConnectFlags) : Nat :=
  let r1 := if flags.clean_start then 0 ||| 2 else 0
  let r2 := if flags.will_flag then r1 ||| 4 else r1
  let r3 := if flags.will_retain then r2 ||| 32 else r2
  let r4 := if flags.username_flag then r3 ||| 128 else r3
  let r5 := if flags.password_flag then r4 ||| 64 else r4
  match flags.will_qos with
  | some q => r5 ||| (q.toU8 <<< 3)
  | none => r5

/-- Mirror of `TryFrom<&u8> for ConnectFlags` (`connect.rs:485-513`):
reserved bit 0 must be clear; a nonzero will-QoS with a clear will flag is
malformed. -/
def ConnectFlags.tryFrom (value : Nat) : Except RtError ConnectFlags :=
  if value &&& 1 ≠ 0 then .error (.err .malformedPacket)
  else
    let cleanStart := (value &&& 2) != 0
    let willFlag := (value &&& 4) != 0
    let willRetain := (value &&& 32) != 0
    let passwordFlag := (value &&& 64) != 0
    let usernameFlag := (value &&& 128) != 0
    let willQosRaw := (value >>> 3) &&& 3
    match willFlag with
    | true =>
      match QoS.tryFrom willQosRaw with
      | .error e => .error e
      | .ok q => .ok ⟨cleanStart, true, some q, willRetain, passwordFlag, usernameFlag⟩
    | false =>
      if willQosRaw ≠ 0 then .error (.err .malformedPacket)
      else .ok ⟨cleanStart, false, none, willRetain, passwordFlag, usernameFlag⟩

/-- Mirror of `validate_protocol` (`connect.rs:543-556`): the name bytes
must match `[0, 4, 'M', 'Q', 'T', 'T']` and the level must be 5. -/
def validateProtocol (name : List Nat) (level : Nat) : Except RtError Unit :=
  if (name.zip [0, 4, 77, 81, 84, 84]).all (fun p => p.1 == p.2) then
    if level = 5 then .ok () else .error (.err .malformedPacket)
  else .error (.err .malformedPacket)

/-- Mirror of `Into<Vec<u8>> for Connect` (`connect.rs:259-324`): fixed
first byte, protocol name and level, flags, keep-alive, property block,
client identifier (always emitted, empty when absent), then — each guarded
by its flag — will properties/topic/payload, username, password; the
remaining length is spliced in last. -/
def Connect.intoBytes (c : Connect) : Except RtError (List Nat) := do
  let props ← (match c.properties with
    | some p => p.intoBytes
    | none => pure [0] : Except RtError (List Nat))
  let clientId : UTF8String :=
    match c.client_id with
    | some s => ⟨some s⟩
    | none => ⟨none⟩
  let willPart ← (match c.will with
    | some w => do
      let wprops ← (match w.properties with
        | some p => p.intoBytes
        | none => pure [0] : Except RtError (List Nat))
      let payload ← BinaryData.newUnwrapIntoBytes w.will_payload
      pure (wprops ++ UTF8String.intoBytes ⟨some w.will_topic⟩ ++ payload)
    | none => pure [] : Except RtError (List Nat))
  let unamePart :=
    match c.username with
    | some u => UTF8String.intoBytes ⟨some u⟩
    | none => []
  let pwdPart ← (match c.password with
    | some pw => BinaryData.newUnwrapIntoBytes pw
    | none => pure [] : Except RtError (List Nat))
  let packet :=
    [16] ++ [0, 4, 77, 81, 84, 84] ++ [c.protocol_level] ++
    [(ConnectFlags.build c).toU8] ++ beBytes2 c.keep_alive ++
    props ++ UTF8String.intoBytes clientId ++ willPart ++ unamePart ++ pwdPart
  pure (calculateAndInsertLength packet)

/-- Mirror of `TryFrom<&[u8]> for Connect` (`connect.rs:326-431`). -/
def Connect.tryFrom (value : List Nat) : Except RtError Connect := do
  let b0 ← index value 0
  if b0 ≠ 16 then throw (.err .malformedPacket)
  let rest ← sliceFrom value 1
  let remainLen ← remainingLength rest
  let cursor := 1 + vbiEncodedLen remainLen
  let protoName ← sliceRange value cursor (cursor + 6)
  let cursor := cursor + 6
  let protoVersion ← index value cursor
  validateProtocol protoName protoVersion
  let cursor := cursor + 1
  let flagsByte ← index value cursor
  let flags ← ConnectFlags.tryFrom flagsByte
  let cursor := cursor + 1
  let ka ← sliceRange value cursor (cursor + 2)
  let keepAlive := ka.getD 0 0 * 256 + ka.getD 1 0
  let cursor := cursor + 2
  let sProps ← sliceFrom value cursor
  let propRes ← ConnectProperties.decode sProps
  let cursor := cursor + propRes.bytesRead
  let sCid ← sliceFrom value cursor
  let clientId ← UTF8String.tryFrom sCid
  let cursor := cursor + clientId.encodedLen
  let willAndCursor ←
    (if flags.will_flag then do
      let sWp ← sliceFrom value cursor
      let wpRes ← WillProperties.decode sWp
      let cursor := cursor + wpRes.bytesRead
      let sWt ← sliceFrom value cursor
      let willTopic ← UTF8String.tryFrom sWt
      let cursor := cursor + willTopic.encodedLen
      let sWpay ← sliceFrom value cursor
      let willPayload ← BinaryData.tryFrom sWpay
      let cursor := cursor + willPayload.encodedLen
      pure (some (⟨flags.will_qos.getD .atLeastOnce, flags.will_retain,
                   wpRes.value, willTopic.value.getD [], willPayload.inner⟩ : LastWill),
            cursor)
    else pure (none, cursor) : Except RtError (Option LastWill × Nat))
  let cursor := willAndCursor.2
  let unameAndCursor ←
    (if flags.username_flag then do
      let sU ← sliceFrom value cursor
      let u ← UTF8String.tryFrom sU
      pure (u.value, cursor + u.encodedLen)
    else pure (none, cursor) : Except RtError (Option (List Nat) × Nat))
  let cursor := unameAndCursor.2
  let password ←
    (if flags.password_flag then do
      let sP ← sliceFrom value cursor
      let pw ← BinaryData.tryFrom sP
      pure (some pw.inner)
    else pure none : Except RtError (Option (List Nat)))
  pure ⟨clientId.value, protoVersion, keepAlive, flags.clean_start,
        propRes.value, willAndCursor.1, unameAndCursor.1, password⟩

/-- Counterexample to C1: encoding the all-default Connect yields 15 bytes,
not the 13 claimed — the empty client-identifier field `[0, 0]` is always
appended — and decoding the claimed 13 bytes panics (index out of bounds):
after the property block the payload is empty, and the client-identifier
decode calls `split_at(2)` on an empty slice. -/
theorem claim_C1_counterexample :
    Connect.intoBytes Connect.default0 =
      .ok [16, 13, 0, 4, 77, 81, 84, 84, 5, 0, 0, 0, 0, 0, 0] ∧
    Connect.intoBytes Connect.default0 ≠
      .ok [16, 11, 0, 4, 77, 81, 84, 84, 5, 0, 0, 0, 0] ∧
    Connect.tryFrom [16, 11, 0, 4, 77, 81, 84, 84, 5, 0, 0, 0, 0] =
      .error .panicked := by
  decide

/-- C1 as amended: encoding the default Connect (no client id, keep-alive
0, clean-start false, no properties, no will) yields the 15 bytes
`[16,13,0,4,77,81,84,84,5,0,0,0,0,0,0]`, and decoding those bytes yields
keep-alive 0, clean-start false, no properties, no will, no username, no
password — and a *present but empty* client identifier, since the decoder
turns the zero-length string field into `Some("")`. -/
theorem claim_C1_amended :
    Connect.intoBytes Connect.default0 =
      .ok [16, 13, 0, 4, 77, 81, 84, 84, 5, 0, 0, 0, 0, 0, 0] ∧
    Connect.tryFrom [16, 13, 0, 4, 77, 81, 84, 84, 5, 0, 0, 0, 0, 0, 0] =
      .ok { Connect.default0 with client_id := some [] } := by
  decide
